import Mathlib

/-!
Shallow embedding of the decision core of an agentic-RAG backend
(routing agent, context-quality scorer, semantic cache), translated from
`backend/app/services/agent.py`, `context_evaluator.py`,
`semantic_cache.py`, `rag.py` and the schemas in
`backend/app/schemas/query.py`.

Conventions of the embedding:
* Python `float` values are modelled as `ℚ`.
* `datetime` instants are modelled as `ℚ` seconds since an arbitrary epoch;
  a `timedelta` is a difference of such instants, in seconds.
* Wall-clock measurements (`time.time()` deltas stored in the `perf` dict)
  are supplied by the environment as opaque integers: they are I/O inputs,
  not computed values.
* Python dicts whose keys may be absent are modelled as records with
  `Option` fields; an absent key is `none`.
* Calls to external collaborators (embedding backend, vector store, LLM,
  internet search) are modelled by environment-supplied outcomes; a call
  that can raise is an `Except` value.
-/

namespace QdrantDemo

/-- Python `s.lower()`, as a character list (ASCII case folding). -/
def lowerChars (s : String) : List Char := s.data.map Char.toLower

/-- Worker for `splitWS`: accumulate the current token (reversed). -/
def splitWSAux : List Char → List Char → List (List Char)
  | [], acc => if acc = [] then [] else [acc.reverse]
  | c :: cs, acc =>
    if c.isWhitespace then
      if acc = [] then splitWSAux cs []
      else acc.reverse :: splitWSAux cs []
    else splitWSAux cs (c :: acc)

/-- Python `str.split()` with no arguments: split on runs of whitespace,
dropping empty pieces. -/
def splitWS (cs : List Char) : List (List Char) := splitWSAux cs []

/-- Python `str.strip()`: drop leading and trailing whitespace. -/
def trimWS (cs : List Char) : List Char :=
  ((cs.dropWhile Char.isWhitespace).reverse.dropWhile Char.isWhitespace).reverse

/-- Decidable substring test (`needle in haystack` in Python). -/
def containsSub (haystack needle : List Char) : Bool :=
  haystack.tails.any (fun t => needle.isPrefixOf t)

/-- Round a rational to the nearest integer, ties to even — the rounding
mode of Python `round`. -/
def roundTiesEven (q : ℚ) : ℤ :=
  if q - ⌊q⌋ = 1/2 then (if ⌊q⌋ % 2 = 0 then ⌊q⌋ else ⌊q⌋ + 1) else round q

/-- Python `round(x, 3)`. -/
def round3 (q : ℚ) : ℚ :=
  (roundTiesEven (q * 1000) : ℚ) / 1000

/-- Python `max(0.0, min(1.0, x))`. -/
def clamp01 (q : ℚ) : ℚ := max 0 (min 1 q)

/-- Arithmetic mean `sum(xs) / len(xs)` of a list of rationals. -/
def mean (xs : List ℚ) : ℚ := xs.sum / xs.length

/-- Model of Python `float(token)` on a whitespace-free token, for plain
decimal notation (optional sign, integer part, optional fractional part).
`float` is an external builtin; exotic spellings (exponents, `inf`, `nan`,
underscores) are out of the model and parse to `none` (taken as failure). -/
def parseFloat (cs0 : List Char) : Option ℚ :=
  let core : List Char → Option ℚ := fun cs =>
    let intPart := cs.takeWhile Char.isDigit
    let rest := cs.dropWhile Char.isDigit
    let fracPart : Option (List Char) :=
      match rest with
      | [] => some []
      | '.' :: fs => if fs.all Char.isDigit then some fs else none
      | _ => none
    match fracPart with
    | none => none
    | some fs =>
      if intPart = [] ∧ fs = [] then none
      else
        let intVal : ℕ := intPart.foldl (fun acc c => 10 * acc + c.toNat - '0'.toNat) 0
        let fracVal : ℕ := fs.foldl (fun acc c => 10 * acc + c.toNat - '0'.toNat) 0
        some ((intVal : ℚ) + (fracVal : ℚ) / (10 : ℚ) ^ fs.length)
  match cs0 with
  | '-' :: cs => (core cs).map (fun q => -q)
  | '+' :: cs => core cs
  | cs => core cs

/-- `app/schemas/query.py` `Source`. -/
structure Source where
  doc_name : String
  doc_id : String
  chunk_text : String
  page : Option ℤ := none
  score : ℚ
  image_url : Option String := none
  deriving DecidableEq, Repr

/-- `app/schemas/query.py` `ContextQuality` (also the dict returned by
`ContextEvaluator.score_context`). -/
structure ContextQuality where
  overall_score : ℚ
  vector_score : ℚ
  coverage : ℚ
  llm_confidence : ℚ
  is_sufficient : Bool
  reason : String
  deriving DecidableEq, Repr

namespace ContextEvaluator

/-- The stop-word set of `ContextEvaluator._calculate_coverage`. -/
def stop_words : List (List Char) :=
  (["what", "is", "the", "a", "an", "how", "why", "when", "where", "who",
    "tell", "me", "about"] : List String).map String.data

/-- `ContextEvaluator._calculate_coverage`: fraction of stop-word-filtered
query terms that occur as whole whitespace tokens of the concatenated
lower-cased source texts (Python set intersection of the two token sets).
Python sets are modelled by deduplicated lists. -/
def calculate_coverage (query : String) (sources : List Source) : ℚ :=
  let query_terms :=
    ((splitWS (lowerChars query)).dedup).filter (fun t => t ∉ stop_words)
  if query_terms = [] then 1/2
  else
    let context_text := List.intercalate [' ']
      (sources.map (fun s => lowerChars s.chunk_text))
    let context_words := (splitWS context_text).dedup
    let matched := (query_terms.filter (fun t => t ∈ context_words)).length
    min ((matched : ℚ) / query_terms.length) 1

/-- Outcome of the single `llm_service.generate` call inside
`_check_llm_confidence`: either a response string or a raised exception. -/
abbrev LLMOutcome := Except Unit String

/-- `ContextEvaluator._check_llm_confidence`, returning the confidence
score together with the number of generate-backend calls made (always 1
here: the call happens before any parsing). On a raised exception the code
falls back to the average vector score (0.0 for no sources). -/
def check_llm_confidence (llm : LLMOutcome) (sources : List Source) : ℚ × ℕ :=
  match llm with
  | .error _ =>
    (if sources ≠ [] then mean (sources.map (fun s => s.score)) else 0, 1)
  | .ok response =>
    let response_clean := trimWS response.data
    let lowered := response_clean.map Char.toLower
    let heuristic : ℚ :=
      if containsSub lowered "cannot".data
          ∨ containsSub lowered "no".data then 1/5
      else if containsSub lowered "fully".data
          ∨ containsSub lowered "yes".data then 9/10
      else 1/2
    match splitWS response_clean with
    | [] => (heuristic, 1)
    | tok :: _ =>
      match parseFloat tok with
      | some score => (clamp01 score, 1)
      | none => (heuristic, 1)

/-- `ContextEvaluator.score_context`, returning the quality record and the
number of generate-backend calls made. -/
def score_context (llm : LLMOutcome) (query : String) (sources : List Source) :
    ContextQuality × ℕ :=
  if sources = [] then
    ({ overall_score := 0, vector_score := 0, coverage := 0,
       llm_confidence := 0, is_sufficient := false,
       reason := "No relevant documents found in knowledge base" }, 0)
  else
    let vector_score := mean (sources.map (fun s => s.score))
    let coverage := calculate_coverage query sources
    let lc := check_llm_confidence llm sources
    let llm_confidence := lc.1
    let overall_score :=
      vector_score * 0.4 + coverage * 0.2 + llm_confidence * 0.4
    let is_sufficient : Bool :=
      decide (overall_score > 0.6 ∧ llm_confidence > 0.5)
    let reason :=
      if is_sufficient then
        "Local knowledge base has sufficient information"
      else if overall_score < 0.3 then
        "Local knowledge base has very limited information"
      else
        "Local knowledge base has partial information, internet search recommended"
    ({ overall_score := round3 overall_score,
       vector_score := round3 vector_score,
       coverage := round3 coverage,
       llm_confidence := round3 llm_confidence,
       is_sufficient := is_sufficient,
       reason := reason }, lc.2)

/-- The coverage sub-score as the specification phrases it, with a term
counted when it appears as a SUBSTRING of the concatenated lower-cased
source texts (to be compared against `calculate_coverage`, which matches
whole whitespace tokens). -/
def coverage_substring_spec (query : String) (sources : List Source) : ℚ :=
  let query_terms :=
    ((splitWS (lowerChars query)).dedup).filter (fun t => t ∉ stop_words)
  if query_terms = [] then 1/2
  else
    let context_text := List.intercalate [' ']
      (sources.map (fun s => lowerChars s.chunk_text))
    let matched := (query_terms.filter (fun t => containsSub context_text t)).length
    min ((matched : ℚ) / query_terms.length) 1

/-- The coverage sub-score as the amended claim phrases it: the fraction
of the set of stop-word-filtered query terms that occur among the set of
whitespace tokens of the concatenated lower-cased source texts, default
0.5 on an empty term set, clamped to [0,1].  Stated over `Finset`s of
terms, to be compared with the filter/dedup computation of the code. -/
def coverage_token_spec (query : String) (sources : List Source) : ℚ :=
  let terms := (splitWS (lowerChars query)).toFinset \ stop_words.toFinset
  if terms = ∅ then 1/2
  else
    let context_text := List.intercalate [' ']
      (sources.map (fun s => lowerChars s.chunk_text))
    let toks := (splitWS context_text).toFinset
    min (((terms ∩ toks).card : ℚ) / (terms.card : ℚ)) 1

end ContextEvaluator

instance {ε α : Type} [DecidableEq ε] [DecidableEq α] :
    DecidableEq (Except ε α) := fun a b =>
  match a, b with
  | .ok x, .ok y =>
    if h : x = y then .isTrue (by rw [h])
    else .isFalse (by intro hc; cases hc; exact h rfl)
  | .error x, .error y =>
    if h : x = y then .isTrue (by rw [h])
    else .isFalse (by intro hc; cases hc; exact h rfl)
  | .ok _, .error _ => .isFalse (by intro hc; cases hc)
  | .error _, .ok _ => .isFalse (by intro hc; cases hc)

namespace SemanticCache

/-- Payload stored with a cache point (`SemanticCache.set` builds it; `get`
reads it back).  `timestamp` is the outcome of
`datetime.fromisoformat(payload['timestamp'])` — parsing a corrupt stored
string raises, which the surrounding `try` absorbs, so it is an `Except`.
The free-form `**metadata` merge (decision metadata) is not read back by
`get` and is omitted. -/
structure CachePayload where
  query : String
  answer : String
  sources : List Source
  mode : String
  timestamp : Except Unit ℚ
  user_id : String
  deriving DecidableEq, Repr

/-- One scored nearest-neighbour returned by `vector_store.search`. -/
structure ScoredPoint where
  id : String
  score : ℚ
  payload : CachePayload
  deriving DecidableEq, Repr

/-- The dict `result_data` built by `SemanticCache.get` on a hit.  The
literal `cached: True` key and the remote-inference observability fields
(`cache_latency_ms`, `cloud_inference_used`, server timing estimates) are
wall-clock I/O and are handled at the agent layer / omitted. -/
structure CacheHit where
  answer : String
  sources : List Source
  mode : String
  cache_score : ℚ
  cached_query : String
  cache_age_minutes : ℤ
  deriving DecidableEq, Repr

/-- Outcome of the embed-and-search step of `SemanticCache.get`
(either of `embed_text_query` / `vector_store.search` may raise). -/
abbrev SearchOutcome := Except Unit (List ScoredPoint)

/-- The body of `SemanticCache.get` (everything inside its `try`), as a
fallible computation.  `now` is `datetime.utcnow()` in seconds;
`ttl_hours * 3600` is `timedelta(hours=self.ttl_hours)` in seconds. -/
def getBody (similarity_threshold ttl_hours now : ℚ)
    (search : SearchOutcome) : Except Unit (Option CacheHit) :=
  match search with
  | .error e => .error e
  | .ok results =>
    match results with
    | [] => .ok none
    | best_match :: _ =>
      if best_match.score < similarity_threshold then
        .ok none
      else
        match best_match.payload.timestamp with
        | .error e => .error e
        | .ok cached_time =>
          let age := now - cached_time
          if age > ttl_hours * 3600 then
            .ok none
          else
            .ok (some
              { answer := best_match.payload.answer,
                sources := best_match.payload.sources,
                mode := best_match.payload.mode,
                cache_score := best_match.score,
                cached_query := best_match.payload.query,
                cache_age_minutes := ⌊age / 60⌋ })

/-- `SemanticCache.get`: the `try`/`except` wrapper — any exception inside
the body is logged and turned into `None` (a miss). -/
def get (similarity_threshold ttl_hours now : ℚ)
    (search : SearchOutcome) : Option CacheHit :=
  match getBody similarity_threshold ttl_hours now search with
  | .ok r => r
  | .error _ => none

/-- A stored cache record: the upserted vector plus its payload, under a
fresh opaque id. -/
structure CacheRecord where
  id : String
  vector : List ℚ
  payload : CachePayload
  deriving DecidableEq, Repr

/-- The body of `SemanticCache.set` (everything inside its `try`): build
the payload, embed the query (`embed` is the fallible outcome of
`embed_text_query`), upsert (`upsert` is the fallible outcome of
`vector_store.upsert_vectors`), producing the new store contents.
Stored source snapshots keep only the five listed fields, so `image_url`
is dropped. -/
def setBody (embed : Except Unit (List ℚ)) (upsert : Except Unit Unit)
    (store : List CacheRecord) (cache_id : String)
    (query answer : String) (sources : List Source) (mode : String)
    (now : ℚ) (user_id : Option String) : Except Unit (List CacheRecord) :=
  let payload : CachePayload :=
    { query := query, answer := answer,
      sources := sources.map (fun s => { s with image_url := none }),
      mode := mode, timestamp := .ok now,
      user_id := user_id.getD "unknown" }
  match embed with
  | .error e => .error e
  | .ok query_vector =>
    match upsert with
    | .error e => .error e
    | .ok _ =>
      .ok (store ++ [{ id := cache_id, vector := query_vector, payload := payload }])

/-- `SemanticCache.set`: the `try`/`except` wrapper — a failure anywhere in
the body is logged and the cache is left unchanged (best-effort no-op). -/
def set (embed : Except Unit (List ℚ)) (upsert : Except Unit Unit)
    (store : List CacheRecord) (cache_id : String)
    (query answer : String) (sources : List Source) (mode : String)
    (now : ℚ) (user_id : Option String) : List CacheRecord :=
  match setBody embed upsert store cache_id query answer sources mode now user_id with
  | .ok store2 => store2
  | .error _ => store

end SemanticCache

/-- The `timings` dict of `RAGService.query_local` (wall-clock, supplied by
the environment). -/
structure Timings where
  embedding_ms : ℤ
  qdrant_search_ms : ℤ
  llm_generation_ms : ℤ
  deriving DecidableEq, Repr

/-- The dict each of `RAGService.query_local` / `query_internet` /
`query_hybrid` returns: answer, sources, a fixed mode tag, and (for
`query_local` with `return_timing=True`) the timings dict. -/
structure RagResult where
  answer : String
  sources : List Source
  mode : String
  timings : Option Timings
  deriving DecidableEq, Repr

/-- `app/schemas/query.py` `PerformanceBreakdown` / the agent's `perf`
dict: every stage key may be absent. -/
structure PerfBreakdown where
  total_ms : Option ℤ := none
  cache_check_ms : Option ℤ := none
  embedding_ms : Option ℤ := none
  qdrant_search_ms : Option ℤ := none
  context_eval_ms : Option ℤ := none
  internet_search_ms : Option ℤ := none
  llm_generation_ms : Option ℤ := none
  cache_store_ms : Option ℤ := none
  deriving DecidableEq, Repr

/-- The result dict `AgenticRAG.query_intelligent` returns.  Keys that are
present only on some paths are `Option`; `none` is an absent key.  The
remote-inference observability passthrough keys of a cache hit are
omitted (never read by the claims or the schema-required fields). -/
structure QueryResult where
  answer : String
  sources : List Source
  mode : String
  cached : Option Bool := none
  cache_score : Option ℚ := none
  cached_query : Option String := none
  cache_age_minutes : Option ℤ := none
  context_quality : Option ContextQuality := none
  agent_decision : Option String := none
  decision_log : List String := []
  query : Option String := none
  query_id : Option String := none
  timestamp : Option ℚ := none
  processing_time_ms : Option ℤ := none
  performance_breakdown : Option PerfBreakdown := none
  deriving DecidableEq, Repr

/-- Observable collaborator-call steps of one `query_intelligent` run, in
execution order (instrumentation of the embedding, used to state ordering
and which services are invoked). -/
inductive Step where
  | cacheLookup
  | localRetrieve
  | scoreCtx
  | runLocal
  | runInternet
  | runHybrid
  | cacheWrite
  deriving DecidableEq, Repr

/-- Environment of one `query_intelligent` call: the user's permission
flags, the outcome of each external collaborator call, and the wall-clock
readings.  `cacheResult` is what `self.cache.get` returns; the three
`...Answer`/`...Sources` pairs are what the vector store + search + LLM
plumbing inside `RAGService` produce for this query. -/
structure AgentEnv where
  can_search_internet : Bool
  can_access_classified : Bool
  cacheResult : Option SemanticCache.CacheHit
  force_mode : Option String
  localAnswer : String
  localSources : List Source
  localTimings : Timings
  internetAnswer : String
  internetSources : List Source
  hybridAnswer : String
  evalLLM : ContextEvaluator.LLMOutcome
  now : ℚ
  nowEpoch : ℤ
  tTotal : ℤ
  tCacheCheck : ℤ
  tLocalTotal : ℤ
  tEval : ℤ
  tInternet : ℤ
  tCacheStore : ℤ
  deriving DecidableEq, Repr

namespace RAGService

/-- `RAGService.query_local`: retrieval + generation collapsed to the
environment outcome; mode tag fixed to "local"; the timings dict is
attached exactly when `return_timing` is set. -/
def query_local (env : AgentEnv) (return_timing : Bool) : RagResult :=
  { answer := env.localAnswer, sources := env.localSources, mode := "local",
    timings := if return_timing then some env.localTimings else none }

/-- `RAGService.query_internet`: mode tag fixed to "internet". -/
def query_internet (env : AgentEnv) : RagResult :=
  { answer := env.internetAnswer, sources := env.internetSources,
    mode := "internet", timings := none }

/-- `RAGService.query_hybrid`: runs `query_local` then `query_internet`,
concatenates their sources, synthesizes a combined answer; mode tag fixed
to "hybrid". -/
def query_hybrid (env : AgentEnv) : RagResult :=
  { answer := env.hybridAnswer,
    sources := (query_local env false).sources ++ (query_internet env).sources,
    mode := "hybrid", timings := none }

end RAGService

namespace AgenticRAG

/-- `AgenticRAG._execute_mode`: dispatch on the mode string, raising
`ValueError(f"Unknown mode: ...")` for anything else. -/
def execute_mode (env : AgentEnv) (mode : String) : Except String RagResult :=
  if mode = "local" then .ok (RAGService.query_local env false)
  else if mode = "internet" then .ok (RAGService.query_internet env)
  else if mode = "hybrid" then .ok (RAGService.query_hybrid env)
  else .error ("Unknown mode: " ++ mode)

/-- Which retrieval step `_execute_mode` performs for a recognized mode. -/
def stepOfMode (mode : String) : List Step :=
  if mode = "local" then [Step.runLocal]
  else if mode = "internet" then [Step.runInternet]
  else [Step.runHybrid]

/-- Steps 2–6 of `AgenticRAG.query_intelligent` (the automatic path taken
on a cache miss with no forced mode): local retrieval, quality scoring,
the routing decision, metadata annotation, cache write.  Log lines are the
code's messages with wall-clock/score interpolations elided. -/
def autoPath (env : AgentEnv) (query : String) (log0 : List String) :
    QueryResult × List Step :=
  let local_result := RAGService.query_local env true
  let perf0 : PerfBreakdown :=
    match local_result.timings with
    | some t =>
      { cache_check_ms := some env.tCacheCheck,
        embedding_ms := some t.embedding_ms,
        qdrant_search_ms := some t.qdrant_search_ms,
        llm_generation_ms := some t.llm_generation_ms }
    | none =>
      { cache_check_ms := some env.tCacheCheck,
        qdrant_search_ms := some env.tLocalTotal }
  let quality := (ContextEvaluator.score_context env.evalLLM query
    local_result.sources).1
  let perf1 := { perf0 with context_eval_ms := some env.tEval }
  let branch : RagResult × String × PerfBreakdown × List Step :=
    if quality.is_sufficient then
      (local_result, "local_sufficient", perf1, [])
    else if env.can_search_internet then
      if quality.overall_score < 0.3 then
        (RAGService.query_internet env, "internet_no_local",
         { perf1 with internet_search_ms := some env.tInternet },
         [Step.runInternet])
      else
        (RAGService.query_hybrid env, "hybrid_partial_local",
         { perf1 with internet_search_ms := some env.tInternet },
         [Step.runHybrid])
    else
      (local_result, "local_no_permission",
       { perf1 with llm_generation_ms := some 0 }, [])
  let final_result := branch.1
  let agent_decision := branch.2.1
  -- The `perf` dict is mutated after being attached to the result, and the
  -- attachment is by reference, so the returned breakdown carries the
  -- trailing `total_ms` / `cache_store_ms` writes as well.
  let perfBranch := branch.2.2.1
  let perf := { perfBranch with
    total_ms := some env.tTotal
    cache_store_ms := some env.tCacheStore }
  let log := log0 ++
    ["Searching local knowledge base (Qdrant)...",
     "Evaluating context quality...", quality.reason,
     "Agent Decision: " ++ agent_decision,
     "Caching result for future queries...", "Complete"]
  ({ answer := final_result.answer,
     sources := final_result.sources,
     mode := final_result.mode,
     context_quality := some quality,
     decision_log := log,
     agent_decision := some agent_decision,
     cached := some false,
     query := some query,
     query_id := some ("agent_" ++ toString env.nowEpoch),
     timestamp := some env.now,
     processing_time_ms := some env.tTotal,
     performance_breakdown := some perf },
   [Step.cacheLookup, Step.localRetrieve, Step.scoreCtx] ++ branch.2.2.2
     ++ [Step.cacheWrite])

/-- `AgenticRAG.query_intelligent`: check the semantic cache first; on a
hit return immediately; otherwise honour a truthy non-"auto" forced mode
(an unknown forced mode raises `ValueError`, which propagates), else take
the automatic path.  The second component is the ordered trace of
collaborator-call steps actually performed. -/
def query_intelligent (env : AgentEnv) (query : String) :
    Except String (QueryResult × List Step) :=
  let log0 := ["Checking semantic cache..."]
  match env.cacheResult with
  | some cached_result =>
    let perf_breakdown : PerfBreakdown :=
      { total_ms := some env.tTotal,
        cache_check_ms := some env.tCacheCheck,
        embedding_ms := none, qdrant_search_ms := none,
        context_eval_ms := none, internet_search_ms := none,
        llm_generation_ms := none, cache_store_ms := none }
    .ok
      ({ answer := cached_result.answer,
         sources := cached_result.sources,
         mode := cached_result.mode,
         cached := some true,
         cache_score := some cached_result.cache_score,
         cached_query := some cached_result.cached_query,
         cache_age_minutes := some cached_result.cache_age_minutes,
         decision_log := log0 ++ ["Cache HIT!", "Returning cached result"],
         query := some query,
         query_id := some ("cached_" ++ toString env.nowEpoch),
         timestamp := some env.now,
         processing_time_ms := some env.tTotal,
         performance_breakdown := some perf_breakdown },
       [Step.cacheLookup])
  | none =>
    let log1 := log0 ++ ["Cache MISS - processing query..."]
    match env.force_mode with
    | some m =>
      if m ≠ "" ∧ m ≠ "auto" then
        match execute_mode env m with
        | .error e => .error e
        | .ok result =>
          .ok
            ({ answer := result.answer,
               sources := result.sources,
               mode := result.mode,
               decision_log := log1 ++ ["User forced mode: " ++ m],
               agent_decision := some ("User override: " ++ m) },
             [Step.cacheLookup] ++ stepOfMode m ++ [Step.cacheWrite])
      else
        .ok (autoPath env query log1)
    | none =>
      .ok (autoPath env query log1)

end AgenticRAG

/-! Concrete inputs used by witnesses and counterexamples. -/

/-- A source whose text contains the query term only as a proper substring
of a token. -/
def srcCats : Source :=
  { doc_name := "d", doc_id := "1", chunk_text := "cats", score := 1 }

/-- A source whose text repeats the query verbatim. -/
def srcX : Source :=
  { doc_name := "d", doc_id := "2", chunk_text := "x", score := 1 }

/-- A baseline agent environment for witnesses (no cache hit, no forced
mode, internet permitted). -/
def envBase : AgentEnv :=
  { can_search_internet := true,
    can_access_classified := false,
    cacheResult := none,
    force_mode := none,
    localAnswer := "local answer",
    localSources := [srcX],
    localTimings := { embedding_ms := 1, qdrant_search_ms := 2, llm_generation_ms := 3 },
    internetAnswer := "internet answer",
    internetSources := [srcCats],
    hybridAnswer := "hybrid answer",
    evalLLM := .ok "0.8",
    now := 0, nowEpoch := 0,
    tTotal := 10, tCacheCheck := 1, tLocalTotal := 2, tEval := 3,
    tInternet := 4, tCacheStore := 5 }

/-- A concrete cache hit for the cache-hit witnesses. -/
def hitC : SemanticCache.CacheHit :=
  { answer := "cached answer", sources := [srcX], mode := "local",
    cache_score := 1, cached_query := "q", cache_age_minutes := 3 }

/-- A concrete nearest point for the cache witnesses: similarity 1, stored
exactly one TTL before `now = 86400` with `ttl_hours = 24`. -/
def bestC : SemanticCache.ScoredPoint :=
  { id := "p1", score := 1,
    payload :=
      { query := "q", answer := "cached answer", sources := [srcX],
        mode := "local", timestamp := .ok 0, user_id := "user_1" } }

/-- The entry `get` returns for `bestC` with threshold 1, TTL 24h, at
`now = 86400`: age is exactly one TTL, 1440 minutes. -/
def hitFromGet : SemanticCache.CacheHit :=
  { answer := "cached answer", sources := [srcX], mode := "local",
    cache_score := 1, cached_query := "q", cache_age_minutes := 1440 }

/-! ## Theorems for the claims -/

/-- C4 counterexample: at a concrete query and the empty source list, the
reason string `score_context` returns is not the claimed fixed string
"no relevant documents found". -/
theorem score_context_empty_reason_counterexample :
    (ContextEvaluator.score_context (.ok "") "x" []).1.reason ≠
      "no relevant documents found" := by
  decide

/-- C4 (amended): for every query and every generation-backend behaviour,
`score_context` on an empty source list returns all-zero scores,
`is_sufficient = false`, the fixed reason string
"No relevant documents found in knowledge base", and makes zero calls to
the generation backend. -/
theorem score_context_empty_sources (llm : ContextEvaluator.LLMOutcome)
    (query : String) :
    ContextEvaluator.score_context llm query [] =
      ({ overall_score := 0, vector_score := 0, coverage := 0,
         llm_confidence := 0, is_sufficient := false,
         reason := "No relevant documents found in knowledge base" }, 0) :=
  rfl

/-- C9: `_execute_mode` on any mode string outside
{local, internet, hybrid} raises `ValueError` rather than defaulting. -/
theorem execute_mode_unknown_raises (env : AgentEnv) (mode : String)
    (h : mode ∉ (["local", "internet", "hybrid"] : List String)) :
    AgenticRAG.execute_mode env mode = .error ("Unknown mode: " ++ mode) := by
  simp only [List.mem_cons, List.not_mem_nil, or_false, not_or] at h
  simp [AgenticRAG.execute_mode, h.1, h.2.1, h.2.2]

/-- C9 witness: the unknown mode "turbo" is rejected with `ValueError`. -/
theorem execute_mode_unknown_raises_witness :
    "turbo" ∉ (["local", "internet", "hybrid"] : List String) ∧
      AgenticRAG.execute_mode envBase "turbo" =
        .error ("Unknown mode: " ++ "turbo") :=
  ⟨by decide, execute_mode_unknown_raises envBase "turbo" (by decide)⟩

/-- C6: cache faults never surface.  If the body of `get` raises, `get`
returns `none` (a miss); if the body of `set` raises, `set` leaves the
store unchanged (a no-op). -/
theorem cache_faults_absorbed (th ttl now : ℚ)
    (search : SemanticCache.SearchOutcome)
    (em : Except Unit (List ℚ)) (up : Except Unit Unit)
    (st : List SemanticCache.CacheRecord) (cid q a : String)
    (srcs : List Source) (mode : String) (nw : ℚ) (uid : Option String)
    (eg es : Unit)
    (h1 : SemanticCache.getBody th ttl now search = .error eg)
    (h2 : SemanticCache.setBody em up st cid q a srcs mode nw uid = .error es) :
    SemanticCache.get th ttl now search = none ∧
      SemanticCache.set em up st cid q a srcs mode nw uid = st := by
  constructor
  · simp [SemanticCache.get, h1]
  · simp [SemanticCache.set, h2]

/-- C6 witness: a raising search makes `get` miss, and a raising embedding
makes `set` a no-op, at concrete inputs. -/
theorem cache_faults_absorbed_witness :
    SemanticCache.getBody 1 24 86400 (.error ()) = .error () ∧
      SemanticCache.setBody (.error ()) (.ok ()) [] "id" "q" "a" [] "local" 0
        none = .error () ∧
      (SemanticCache.get 1 24 86400 (.error ()) = none ∧
        SemanticCache.set (.error ()) (.ok ()) [] "id" "q" "a" [] "local" 0
          none = []) :=
  ⟨rfl, rfl,
    cache_faults_absorbed 1 24 86400 (.error ()) (.error ()) (.ok ()) []
      "id" "q" "a" [] "local" 0 none () () rfl rfl⟩

/-- C5: for a non-empty source list, `score_context` returns the weighted
blend 0.4·vector + 0.2·coverage + 0.4·confidence, with `vector` the
arithmetic mean of the source scores, declares sufficiency exactly when
the (unrounded) blend exceeds 0.6 and the confidence exceeds 0.5, and
rounds every returned numeric score to 3 decimal places. -/
theorem score_context_formula (llm : ContextEvaluator.LLMOutcome)
    (query : String) (sources : List Source) (h : sources ≠ []) :
    (ContextEvaluator.score_context llm query sources).1.overall_score =
        round3 (0.4 * mean (sources.map (fun s => s.score))
          + 0.2 * ContextEvaluator.calculate_coverage query sources
          + 0.4 * (ContextEvaluator.check_llm_confidence llm sources).1) ∧
      (ContextEvaluator.score_context llm query sources).1.vector_score =
        round3 (mean (sources.map (fun s => s.score))) ∧
      (ContextEvaluator.score_context llm query sources).1.coverage =
        round3 (ContextEvaluator.calculate_coverage query sources) ∧
      (ContextEvaluator.score_context llm query sources).1.llm_confidence =
        round3 (ContextEvaluator.check_llm_confidence llm sources).1 ∧
      ((ContextEvaluator.score_context llm query sources).1.is_sufficient =
          true ↔
        (0.4 * mean (sources.map (fun s => s.score))
            + 0.2 * ContextEvaluator.calculate_coverage query sources
            + 0.4 * (ContextEvaluator.check_llm_confidence llm sources).1 > 0.6
          ∧ (ContextEvaluator.check_llm_confidence llm sources).1 > 0.5)) := by
  have hflip : ∀ a b c : ℚ,
      a * 0.4 + b * 0.2 + c * 0.4 = 0.4 * a + 0.2 * b + 0.4 * c := by
    intro a b c; ring
  refine ⟨?_, ?_, ?_, ?_, ?_⟩
  · simp only [ContextEvaluator.score_context, if_neg h]
    rw [hflip]
  · simp only [ContextEvaluator.score_context, if_neg h]
  · simp only [ContextEvaluator.score_context, if_neg h]
  · simp only [ContextEvaluator.score_context, if_neg h]
  · simp only [ContextEvaluator.score_context, if_neg h, decide_eq_true_eq]
    rw [hflip]

/-- C5 witness: the formula claim instantiated at a concrete non-empty
source list and backend response. -/
theorem score_context_formula_witness :
    ([srcX] : List Source) ≠ [] ∧
      ((ContextEvaluator.score_context (.ok "0.8") "x" [srcX]).1.overall_score =
          round3 (0.4 * mean ([srcX].map (fun s => s.score))
            + 0.2 * ContextEvaluator.calculate_coverage "x" [srcX]
            + 0.4 * (ContextEvaluator.check_llm_confidence (.ok "0.8") [srcX]).1) ∧
        (ContextEvaluator.score_context (.ok "0.8") "x" [srcX]).1.vector_score =
          round3 (mean ([srcX].map (fun s => s.score))) ∧
        (ContextEvaluator.score_context (.ok "0.8") "x" [srcX]).1.coverage =
          round3 (ContextEvaluator.calculate_coverage "x" [srcX]) ∧
        (ContextEvaluator.score_context (.ok "0.8") "x" [srcX]).1.llm_confidence =
          round3 (ContextEvaluator.check_llm_confidence (.ok "0.8") [srcX]).1 ∧
        ((ContextEvaluator.score_context (.ok "0.8") "x" [srcX]).1.is_sufficient =
            true ↔
          (0.4 * mean ([srcX].map (fun s => s.score))
              + 0.2 * ContextEvaluator.calculate_coverage "x" [srcX]
              + 0.4 * (ContextEvaluator.check_llm_confidence (.ok "0.8") [srcX]).1
              > 0.6
            ∧ (ContextEvaluator.check_llm_confidence (.ok "0.8") [srcX]).1
              > 0.5))) :=
  ⟨by decide, score_context_formula (.ok "0.8") "x" [srcX] (by decide)⟩

/-- C3 counterexample: for query "cat" and the single source text "cats",
the code's coverage is 0 (the term "cat" is not a whitespace token of the
context) while the claimed substring-based coverage is 1 ("cat" is a
substring of "cats"). -/
theorem coverage_substring_counterexample :
    ContextEvaluator.calculate_coverage "cat" [srcCats] = 0 ∧
      ContextEvaluator.coverage_substring_spec "cat" [srcCats] = 1 := by
  have hterms :
      ((splitWS (lowerChars "cat")).dedup).filter
        (fun t => t ∉ ContextEvaluator.stop_words) = ["cat".data] := by decide
  have hctx :
      List.intercalate [' ']
        (([srcCats] : List Source).map (fun s => lowerChars s.chunk_text)) =
        "cats".data := by decide
  have hwords : (splitWS "cats".data).dedup = ["cats".data] := by decide
  have hmatch :
      (["cat".data] : List (List Char)).filter
        (fun t => t ∈ (["cats".data] : List (List Char))) = [] := by decide
  have hsub :
      (["cat".data] : List (List Char)).filter
        (fun t => containsSub "cats".data t) = ["cat".data] := by decide
  constructor
  · simp only [ContextEvaluator.calculate_coverage, hterms, hctx, hwords,
      hmatch]
    norm_num
  · simp only [ContextEvaluator.coverage_substring_spec, hterms, hctx, hsub]
    norm_num

/-- C3 (amended): for every query and non-empty source list, the coverage
sub-score equals the fraction of the set of lower-cased,
whitespace-tokenized, stop-word-filtered query terms that occur among the
whitespace tokens of the concatenated lower-cased source texts,
defaulting to 0.5 when the filtered term set is empty, clamped to [0,1]. -/
theorem calculate_coverage_token_fraction (query : String)
    (sources : List Source) (h : sources ≠ []) :
    ContextEvaluator.calculate_coverage query sources =
      ContextEvaluator.coverage_token_spec query sources := by
  classical
  unfold ContextEvaluator.calculate_coverage ContextEvaluator.coverage_token_spec
  have hset :
      ((splitWS (lowerChars query)).dedup.filter
          (fun t => t ∉ ContextEvaluator.stop_words)).toFinset =
        (splitWS (lowerChars query)).toFinset \
          ContextEvaluator.stop_words.toFinset := by
    ext t
    simp [List.mem_filter, List.mem_dedup]
  have hnodup :
      ((splitWS (lowerChars query)).dedup.filter
          (fun t => t ∉ ContextEvaluator.stop_words)).Nodup :=
    (List.nodup_dedup _).filter _
  by_cases hz :
      (splitWS (lowerChars query)).dedup.filter
        (fun t => t ∉ ContextEvaluator.stop_words) = []
  · rw [if_pos hz, if_pos (by rw [← hset, hz]; simp)]
  · rw [if_neg hz,
      if_neg (by rw [← hset, List.toFinset_eq_empty_iff]; exact hz)]
    have hlen :
        ((splitWS (lowerChars query)).dedup.filter
            (fun t => t ∉ ContextEvaluator.stop_words)).length =
          ((splitWS (lowerChars query)).toFinset \
            ContextEvaluator.stop_words.toFinset).card := by
      rw [← hset, List.toFinset_card_of_nodup hnodup]
    have hmat :
        (((splitWS (lowerChars query)).dedup.filter
              (fun t => t ∉ ContextEvaluator.stop_words)).filter
            (fun t => t ∈ (splitWS (List.intercalate [' ']
              (sources.map (fun s => lowerChars s.chunk_text)))).dedup)).length =
          (((splitWS (lowerChars query)).toFinset \
              ContextEvaluator.stop_words.toFinset) ∩
            (splitWS (List.intercalate [' ']
              (sources.map (fun s => lowerChars s.chunk_text)))).toFinset).card := by
      rw [← List.toFinset_card_of_nodup (hnodup.filter _)]
      congr 1
      ext t
      simp [List.mem_filter, List.mem_dedup]
      tauto
    rw [hlen]
    simp only [hmat]

/-- C3 witness: the amended coverage characterization instantiated at a
concrete query and non-empty source list. -/
theorem calculate_coverage_token_fraction_witness :
    ([srcCats] : List Source) ≠ [] ∧
      ContextEvaluator.calculate_coverage "cat" [srcCats] =
        ContextEvaluator.coverage_token_spec "cat" [srcCats] :=
  ⟨by decide, calculate_coverage_token_fraction "cat" [srcCats] (by decide)⟩

/-- C2: every entry `get` returns carries a similarity score at or above
the threshold and a stored timestamp whose age is within the TTL; a
nearest point below the threshold, or one past the TTL, yields a miss. -/
theorem cache_get_threshold_and_ttl (th ttl now : ℚ)
    (best : SemanticCache.ScoredPoint)
    (rest : List SemanticCache.ScoredPoint) :
    (∀ e, SemanticCache.get th ttl now (.ok (best :: rest)) = some e →
        th ≤ e.cache_score ∧
          ∃ ts, best.payload.timestamp = .ok ts ∧ now - ts ≤ ttl * 3600) ∧
      (best.score < th →
        SemanticCache.get th ttl now (.ok (best :: rest)) = none) ∧
      (∀ ts, best.payload.timestamp = .ok ts → now - ts > ttl * 3600 →
        SemanticCache.get th ttl now (.ok (best :: rest)) = none) := by
  refine ⟨?_, ?_, ?_⟩
  · intro e he
    by_cases h1 : best.score < th
    · simp [SemanticCache.get, SemanticCache.getBody, h1] at he
    · cases hts : best.payload.timestamp with
      | error u =>
        simp [SemanticCache.get, SemanticCache.getBody, h1, hts] at he
      | ok ts =>
        by_cases h2 : now - ts > ttl * 3600
        · simp [SemanticCache.get, SemanticCache.getBody, h1, hts, h2] at he
        · simp [SemanticCache.get, SemanticCache.getBody, h1, hts, h2] at he
          refine ⟨?_, ts, rfl, not_lt.mp h2⟩
          rw [← he]
          exact not_lt.mp h1
  · intro h1
    simp [SemanticCache.get, SemanticCache.getBody, h1]
  · intro ts hts h2
    by_cases h1 : best.score < th
    · simp [SemanticCache.get, SemanticCache.getBody, h1]
    · simp [SemanticCache.get, SemanticCache.getBody, h1, hts, h2]

/-- C2 witness: with threshold 1 and TTL 24h, a point of score 1 stored
exactly 24h before `now` is returned, and the returned entry satisfies the
threshold and TTL bounds. -/
theorem cache_get_threshold_and_ttl_witness :
    SemanticCache.get 1 24 86400 (.ok [bestC]) = some hitFromGet ∧
      (1 ≤ hitFromGet.cache_score ∧
        ∃ ts, bestC.payload.timestamp = .ok ts ∧
          (86400 : ℚ) - ts ≤ 24 * 3600) := by
  have hget : SemanticCache.get 1 24 86400 (.ok [bestC]) = some hitFromGet := by
    simp only [SemanticCache.get, SemanticCache.getBody, bestC, hitFromGet]
    norm_num [srcX]
  exact ⟨hget,
    (cache_get_threshold_and_ttl 1 24 86400 bestC []).1 hitFromGet hget⟩

/-- C7: the cache lookup comes first on every run; on a hit the agent
returns immediately — independently of any requested forced mode — with
`cached = true`, no ContextQuality, and a performance breakdown whose
non-cache stages are all null, and performs no further steps. -/
theorem cache_hit_short_circuits (env : AgentEnv) (query : String)
    (hit : SemanticCache.CacheHit) (h : env.cacheResult = some hit) :
    AgenticRAG.query_intelligent env query =
        .ok ({ answer := hit.answer, sources := hit.sources, mode := hit.mode,
               cached := some true, cache_score := some hit.cache_score,
               cached_query := some hit.cached_query,
               cache_age_minutes := some hit.cache_age_minutes,
               context_quality := none, agent_decision := none,
               decision_log := ["Checking semantic cache...", "Cache HIT!",
                 "Returning cached result"],
               query := some query,
               query_id := some ("cached_" ++ toString env.nowEpoch),
               timestamp := some env.now,
               processing_time_ms := some env.tTotal,
               performance_breakdown := some
                 { total_ms := some env.tTotal,
                   cache_check_ms := some env.tCacheCheck,
                   embedding_ms := none, qdrant_search_ms := none,
                   context_eval_ms := none, internet_search_ms := none,
                   llm_generation_ms := none, cache_store_ms := none } },
          [Step.cacheLookup]) ∧
      (∀ fm, AgenticRAG.query_intelligent { env with force_mode := fm } query =
        AgenticRAG.query_intelligent env query) ∧
      (∀ (env2 : AgentEnv) (q2 : String) (r : QueryResult) (tr : List Step),
        AgenticRAG.query_intelligent env2 q2 = .ok (r, tr) →
        tr.head? = some Step.cacheLookup) := by
  refine ⟨?_, ?_, ?_⟩
  · simp [AgenticRAG.query_intelligent, h]
  · intro fm
    show AgenticRAG.query_intelligent
      { env with force_mode := fm } query = _
    simp [AgenticRAG.query_intelligent, h]
  · intro env2 q2 r tr he
    have hauto : ∀ lg,
        ((AgenticRAG.autoPath env2 q2 lg).2).head? = some Step.cacheLookup := by
      intro lg
      rw [AgenticRAG.autoPath]
      simp
    rcases henv : env2.cacheResult with _ | hit2
    · rcases hfm : env2.force_mode with _ | m
      · simp only [AgenticRAG.query_intelligent, henv, hfm,
          Except.ok.injEq] at he
        have h2 := congrArg Prod.snd he
        dsimp only at h2
        rw [← h2]
        exact hauto _
      · simp only [AgenticRAG.query_intelligent, henv, hfm] at he
        by_cases hm : m ≠ "" ∧ m ≠ "auto"
        · rw [if_pos hm] at he
          rcases hex : AgenticRAG.execute_mode env2 m with e | res
          · rw [hex] at he; cases he
          · rw [hex] at he
            simp only [Except.ok.injEq] at he
            have h2 := congrArg Prod.snd he
            dsimp only at h2
            rw [← h2]
            simp
        · rw [if_neg hm] at he
          simp only [Except.ok.injEq] at he
          have h2 := congrArg Prod.snd he
          dsimp only at h2
          rw [← h2]
          exact hauto _
    · simp only [AgenticRAG.query_intelligent, henv, Except.ok.injEq] at he
      have h2 := congrArg Prod.snd he
      dsimp only at h2
      rw [← h2]
      rfl

/-- C7 witness: the cache-hit behaviour instantiated at a concrete
environment holding the hit `hitC`. -/
theorem cache_hit_short_circuits_witness :
    ({ envBase with cacheResult := some hitC } : AgentEnv).cacheResult =
        some hitC ∧
      AgenticRAG.query_intelligent { envBase with cacheResult := some hitC }
          "q" =
        .ok ({ answer := hitC.answer, sources := hitC.sources,
               mode := hitC.mode,
               cached := some true, cache_score := some hitC.cache_score,
               cached_query := some hitC.cached_query,
               cache_age_minutes := some hitC.cache_age_minutes,
               context_quality := none, agent_decision := none,
               decision_log := ["Checking semantic cache...", "Cache HIT!",
                 "Returning cached result"],
               query := some "q",
               query_id := some ("cached_" ++ toString
                 ({ envBase with cacheResult := some hitC } : AgentEnv).nowEpoch),
               timestamp := some
                 ({ envBase with cacheResult := some hitC } : AgentEnv).now,
               processing_time_ms := some
                 ({ envBase with cacheResult := some hitC } : AgentEnv).tTotal,
               performance_breakdown := some
                 { total_ms := some
                     ({ envBase with cacheResult := some hitC } : AgentEnv).tTotal,
                   cache_check_ms := some
                     ({ envBase with
                        cacheResult := some hitC } : AgentEnv).tCacheCheck,
                   embedding_ms := none, qdrant_search_ms := none,
                   context_eval_ms := none, internet_search_ms := none,
                   llm_generation_ms := none, cache_store_ms := none } },
          [Step.cacheLookup]) :=
  ⟨rfl,
    (cache_hit_short_circuits { envBase with cacheResult := some hitC } "q"
      hitC rfl).1⟩

/-- C1: on a cache miss with no forced mode, the chosen mode and decision
tag are exactly the claim's 4-way function of the computed quality's
sufficiency flag, the internet permission, and the quality's overall
score. -/
theorem agent_auto_routing (env : AgentEnv) (query : String)
    (hc : env.cacheResult = none) (hf : env.force_mode = none) :
    ∃ r tr, AgenticRAG.query_intelligent env query = .ok (r, tr) ∧
      r.mode =
        (if (ContextEvaluator.score_context env.evalLLM query
            (RAGService.query_local env true).sources).1.is_sufficient then
          "local"
        else if ¬env.can_search_internet then "local"
        else if (ContextEvaluator.score_context env.evalLLM query
            (RAGService.query_local env true).sources).1.overall_score
            < 0.3 then
          "internet"
        else "hybrid") ∧
      r.agent_decision = some
        (if (ContextEvaluator.score_context env.evalLLM query
            (RAGService.query_local env true).sources).1.is_sufficient then
          "local_sufficient"
        else if ¬env.can_search_internet then "local_no_permission"
        else if (ContextEvaluator.score_context env.evalLLM query
            (RAGService.query_local env true).sources).1.overall_score
            < 0.3 then
          "internet_no_local"
        else "hybrid_partial_local") := by
  simp only [AgenticRAG.query_intelligent, hc, hf]
  refine ⟨_, _, rfl, ?_, ?_⟩ <;>
  · by_cases hS : (ContextEvaluator.score_context env.evalLLM query
        env.localSources).1.is_sufficient = true
    · simp [AgenticRAG.autoPath, RAGService.query_local, hS]
    · by_cases hP : env.can_search_internet = true
      · by_cases hO : (ContextEvaluator.score_context env.evalLLM query
            env.localSources).1.overall_score < 0.3
        · simp [AgenticRAG.autoPath, RAGService.query_local,
            RAGService.query_internet, hS, hP, hO]
        · simp [AgenticRAG.autoPath, RAGService.query_local,
            RAGService.query_internet, RAGService.query_hybrid, hS, hP, hO]
      · simp [AgenticRAG.autoPath, RAGService.query_local, hS, hP]

/-- C1 witness: the routing truth table instantiated at the concrete
baseline environment (cache miss, no forced mode). -/
theorem agent_auto_routing_witness :
    envBase.cacheResult = none ∧ envBase.force_mode = none ∧
      (∃ r tr, AgenticRAG.query_intelligent envBase "q" = .ok (r, tr) ∧
        r.mode =
          (if (ContextEvaluator.score_context envBase.evalLLM "q"
              (RAGService.query_local envBase true).sources).1.is_sufficient then
            "local"
          else if ¬envBase.can_search_internet then "local"
          else if (ContextEvaluator.score_context envBase.evalLLM "q"
              (RAGService.query_local envBase true).sources).1.overall_score
              < 0.3 then
            "internet"
          else "hybrid") ∧
        r.agent_decision = some
          (if (ContextEvaluator.score_context envBase.evalLLM "q"
              (RAGService.query_local envBase true).sources).1.is_sufficient then
            "local_sufficient"
          else if ¬envBase.can_search_internet then "local_no_permission"
          else if (ContextEvaluator.score_context envBase.evalLLM "q"
              (RAGService.query_local envBase true).sources).1.overall_score
              < 0.3 then
            "internet_no_local"
          else "hybrid_partial_local")) :=
  ⟨rfl, rfl, agent_auto_routing envBase "q" rfl rfl⟩

/-- C10: an empty-string forced mode is falsy, so `query_intelligent`
silently takes the automatic path (identical to passing no forced mode),
performing local retrieval and scoring rather than failing fast. -/
theorem empty_force_mode_treated_as_auto (env : AgentEnv) (query : String)
    (hc : env.cacheResult = none) :
    AgenticRAG.query_intelligent { env with force_mode := some "" } query =
        AgenticRAG.query_intelligent { env with force_mode := none } query ∧
      ∃ r tr,
        AgenticRAG.query_intelligent { env with force_mode := some "" } query =
          .ok (r, tr) ∧ Step.scoreCtx ∈ tr ∧ Step.localRetrieve ∈ tr := by
  constructor
  · simp only [AgenticRAG.query_intelligent, hc]
    rw [if_neg (by decide : ¬(("" : String) ≠ "" ∧ ("" : String) ≠ "auto"))]
    simp [AgenticRAG.autoPath, RAGService.query_local,
      RAGService.query_internet, RAGService.query_hybrid]
  · simp only [AgenticRAG.query_intelligent, hc]
    rw [if_neg (by decide : ¬(("" : String) ≠ "" ∧ ("" : String) ≠ "auto"))]
    refine ⟨(AgenticRAG.autoPath { env with force_mode := some "" } query
        (["Checking semantic cache..."] ++
          ["Cache MISS - processing query..."])).1,
      (AgenticRAG.autoPath { env with force_mode := some "" } query
        (["Checking semantic cache..."] ++
          ["Cache MISS - processing query..."])).2, rfl, ?_, ?_⟩ <;>
    · rw [AgenticRAG.autoPath]
      simp

/-- C10 witness: the empty-string mode behaves as auto at the concrete
baseline environment. -/
theorem empty_force_mode_treated_as_auto_witness :
    envBase.cacheResult = none ∧
      (AgenticRAG.query_intelligent { envBase with force_mode := some "" }
          "q" =
        AgenticRAG.query_intelligent { envBase with force_mode := none }
          "q" ∧
      ∃ r tr,
        AgenticRAG.query_intelligent { envBase with force_mode := some "" }
            "q" =
          .ok (r, tr) ∧ Step.scoreCtx ∈ tr ∧ Step.localRetrieve ∈ tr) :=
  ⟨rfl, empty_force_mode_treated_as_auto envBase "q" rfl⟩

/-- C8 at its failing input (the code-bug evaluation): a cache-missing
query with forced mode "local" skips the scorer, executes local mode,
tags the decision "User override: local" and reaches the cache write —
but the returned result carries NO performance breakdown, NO query id, NO
timestamp and no query echo (the fields the claim, the spec's
AnnotateAndCache step, and the required response-schema fields say must
be attached). -/
theorem forced_mode_result_lacks_annotations :
    AgenticRAG.query_intelligent { envBase with force_mode := some "local" }
        "q" =
      .ok ({ answer := "local answer", sources := [srcX], mode := "local",
             cached := none, cache_score := none, cached_query := none,
             cache_age_minutes := none, context_quality := none,
             agent_decision := some "User override: local",
             decision_log := ["Checking semantic cache...",
               "Cache MISS - processing query...", "User forced mode: local"],
             query := none, query_id := none, timestamp := none,
             processing_time_ms := none, performance_breakdown := none },
        [Step.cacheLookup, Step.runLocal, Step.cacheWrite]) ∧
      Step.scoreCtx ∉ [Step.cacheLookup, Step.runLocal, Step.cacheWrite] := by
  constructor
  · rfl
  · decide

end QdrantDemo
